import Mathlib

/-!
Verification of the Story Scoring & Feedback Engine of the STARMETHOD
repository (src/STARMETHOD/unified_star_coach.py; star_method_coach.py holds
the same scoring and feedback logic).

Python strings are modelled as lists of characters (`Str`).  `str.split()`
(whitespace split, empty pieces dropped), `str.lower()` (ASCII case map),
`str.isdigit()` (ASCII digits) and the `in` substring test are embedded as
executable functions below.  The scoring method `score_story` is embedded as
a state-passing function returning the story after the call together with a
`ScoreResult`: the source signals an incomplete story by printing a message
and returning without scoring, and an unknown competency by the `KeyError`
of the dictionary lookup `self.general_competencies[competency]`; both happen
before the single mutation `story['score'] = score`.
-/

/-- Python strings are modelled as lists of characters. -/
abbrev Str := List Char

/-- The ASCII whitespace characters on which Python's `str.split()` splits:
space, tab, newline, carriage return, vertical tab, form feed. -/
def pyIsSpace (c : Char) : Bool :=
  decide (c.toNat = 32 ∨ c.toNat = 9 ∨ c.toNat = 10 ∨ c.toNat = 13 ∨
    c.toNat = 11 ∨ c.toNat = 12)

/-- ASCII lower-casing of one character, as Python's `str.lower()` acts on
the ASCII range ('A'..'Z' have codes 65..90). -/
def pyLowerChar (c : Char) : Char :=
  if 65 ≤ c.toNat ∧ c.toNat ≤ 90 then Char.ofNat (c.toNat + 32) else c

/-- Python's `str.lower()`. -/
def pyLower (s : Str) : Str := s.map pyLowerChar

/-- Helper for `pySplit`: walks the string with an accumulator holding the
current word reversed. -/
def splitWsAux : Str → Str → List Str
  | [], acc => if acc = [] then [] else [acc.reverse]
  | c :: cs, acc =>
    if pyIsSpace c then
      (if acc = [] then [] else [acc.reverse]) ++ splitWsAux cs []
    else
      splitWsAux cs (c :: acc)

/-- Python's `str.split()` with no argument: split on runs of whitespace,
dropping empty pieces. -/
def pySplit (s : Str) : List Str := splitWsAux s []

/-- `len(s.split())`, the word count used throughout the engine. -/
def wordCount (s : Str) : Nat := (pySplit s).length

/-- Whether the first list is an initial segment of the second. -/
def leadsList : Str → Str → Bool
  | [], _ => true
  | _ :: _, [] => false
  | a :: as, b :: bs => a == b && leadsList as bs

/-- Python's substring test `needle in hay` (contiguous substring). -/
def hasSubstr (needle : Str) : Str → Bool
  | [] => needle.isEmpty
  | c :: cs => leadsList needle (c :: cs) || hasSubstr needle cs

/-- The four qualitative labels the engine can assign.  The source assigns
the literal strings "Talented", "Skilled", "Unskilled", "Overused"; the label
domain is exactly these four values. -/
inductive Label where
  | Talented : Label
  | Skilled : Label
  | Unskilled : Label
  | Overused : Label
deriving DecidableEq

/-- The string the source stores in `story['score']` for each label. -/
def labelStr : Label → Str
  | .Talented => "Talented".toList
  | .Skilled => "Skilled".toList
  | .Unskilled => "Unskilled".toList
  | .Overused => "Overused".toList

/-- `self.scoring_criteria[score]['description']`, the fixed description
printed for each label. -/
def score_description : Label → Str
  | .Talented => "Exceptional demonstration of the competency, going beyond expectations".toList
  | .Skilled => "Effective demonstration of the competency, meeting expectations".toList
  | .Unskilled => "Limited demonstration of the competency, below expectations".toList
  | .Overused => "Excessive or inappropriate application of the competency".toList

/-- One entry of the Competency Catalog (`load_general_competencies`). -/
structure CompetencyEntry where
  description : Str
  questions : List Str
  skilled_signs : List Str
  unskilled_signs : List Str
deriving DecidableEq

/-- The Story record (src/STARMETHOD/models.py). -/
structure Story where
  competency : Str
  question : Str
  situation : Str
  task : Str
  action : Str
  result : Str
  score : Option Str
  timestamp : Option Str
deriving DecidableEq

def actionOrientedEntry : CompetencyEntry where
  description := "Taking on new opportunities and tough challenges with a sense of urgency, high energy, and enthusiasm.".toList
  questions :=
    ["Explain what you did when faced with a difficult and urgent problem.".toList,
     "Tell me about a time you had to take over someone else's challenging project.".toList,
     "Tell me about a situation that required an enormous amount of energy and effort.".toList,
     "Describe a time you seized an opportunity and moved forward with purpose.".toList,
     "Tell me about a time you were the first person to take action on something.".toList]
  skilled_signs :=
    ["Readily takes action on challenges, without unnecessary planning".toList,
     "Identifies and seizes new opportunities".toList,
     "Displays a can-do attitude in good and bad times".toList,
     "Steps up to handle tough issues".toList]
  unskilled_signs :=
    ["Is slow to act on an opportunity".toList,
     "Spends too much time planning and looking for information".toList,
     "May be overly methodical, taking too long to act on a problem".toList,
     "Is reluctant to step up to challenges; waits for someone else to take action".toList]

def beingResilientEntry : CompetencyEntry where
  description := "Rebounding from setbacks and adversity when facing difficult situations.".toList
  questions :=
    ["Describe a crisis you had to handle.".toList,
     "Give me an example of how you managed an emergency situation.".toList,
     "Tell me about a time when you felt under extreme pressure but managed to carry on.".toList,
     "Tell me about a time when a project or initiative seemed like it was going nowhere.".toList,
     "Tell me about a time when someone or something caught you by surprise and caused you to be blocked.".toList]
  skilled_signs :=
    ["Is confident under pressure".toList,
     "Handles and manages crises effectively".toList,
     "Maintains a positive attitude despite adversity".toList,
     "Bounces back from setbacks".toList,
     "Grows from hardships and negative experiences".toList]
  unskilled_signs :=
    ["Gets easily rattled in high-pressure situations".toList,
     "Exhibits low energy and motivation during times of stress and worry".toList,
     "Acts defensively when faced with criticism or roadblocks".toList,
     "Takes too long to recover from setbacks".toList]

def collaboratesEntry : CompetencyEntry where
  description := "Building partnerships and working collaboratively with others to meet shared objectives.".toList
  questions :=
    ["Tell me about a time when you built strong relationships where none previously existed.".toList,
     "Describe a time you had to build partnerships to achieve a shared objective.".toList,
     "Tell me about a successful experience you had implementing something across organizational boundaries.".toList,
     "Describe a time when a team or group did not get their share of credit.".toList,
     "Tell me about a time you succeeded in an initiative by collaborating with others.".toList]
  skilled_signs :=
    ["Works cooperatively with others across the organization to achieve shared objectives".toList,
     "Represents own interests while being fair to others and their areas".toList,
     "Partners with others to get work done and recognizes their contributions".toList,
     "Gains trust and support of others".toList]
  unskilled_signs :=
    ["Overlooks opportunities to work collaboratively with others".toList,
     "Puts own interests above others'".toList,
     "Shuts down lines of communication across groups".toList,
     "Prefers to work alone and be accountable only for individual contributions".toList]

def communicatesEffectivelyEntry : CompetencyEntry where
  description := "Developing and delivering multi-mode communications that convey a clear understanding of the unique needs of different audiences.".toList
  questions :=
    ["Tell me about a time when you had to explain something important to someone who did not understand your industry or function's language or work.".toList,
     "Describe the best presentation you've ever given.".toList,
     "Tell me about a time when others were missing the key points in a discussion and you helped get things back on track.".toList,
     "Tell me about a time you had to shut off a person in the middle of a meeting or who was talking too much or interrupting.".toList,
     "Describe a time you had to convey the same message through different methods of communication.".toList]
  skilled_signs :=
    ["Is effective in a variety of communication settings".toList,
     "Attentively listens to others".toList,
     "Adjusts to fit the audience and the message".toList,
     "Provides timely and helpful information to others".toList,
     "Encourages the open expression of diverse ideas and opinions".toList]
  unskilled_signs :=
    ["Has difficulty communicating clear written and verbal messages".toList,
     "Tends to always communicate the same way without adjusting to diverse audiences".toList,
     "Doesn't take the time to listen or understand others' viewpoints".toList,
     "Doesn't consistently share information others need to do their jobs".toList]

def customerFocusEntry : CompetencyEntry where
  description := "Building strong customer relationships and delivering customer-centric solutions.".toList
  questions :=
    ["Describe a time you obtained up-to-date information from a customer, and what you did with it.".toList,
     "Tell me about a time when you went the extra mile for a challenging customer.".toList,
     "Tell me about a time you were confronted with an internal or external customer problem.".toList,
     "Tell me about a time when you almost lost a customer and had to win them back.".toList,
     "Tell me about a time when you changed your approach to better meet a customer's needs.".toList]
  skilled_signs :=
    ["Gains insight into customer needs".toList,
     "Identifies opportunities that benefit both the customer and the organization".toList,
     "Builds and delivers solutions that meet customer expectations".toList,
     "Establishes and maintains effective customer relationships".toList]
  unskilled_signs :=
    ["Thinks they already know what the customer needs".toList,
     "Doesn't consider customer feedback important".toList,
     "Doesn't dedicate enough time to building relationships with customers".toList,
     "Focuses on internal activities instead of the customer".toList]

def decisionQualityEntry : CompetencyEntry where
  description := "Making good and timely decisions that keep the organization moving forward.".toList
  questions :=
    ["Describe a time you had to make a quick decision and gather a lot of information in a short time frame.".toList,
     "Give me an example of a difficult problem you worked on and walk me through your decision-making process.".toList,
     "Describe a time when you made a major decision and were really pleased with the outcome.".toList,
     "Tell me about a quick decision you made that turned out to be a good one.".toList,
     "Describe a time when you received useful feedback on a decision you made.".toList]
  skilled_signs :=
    ["Makes sound decisions, even in the absence of complete information".toList,
     "Relies on experience, analysis, and judgment when making decisions".toList,
     "Considers all relevant factors and uses appropriate decision-making criteria".toList,
     "Recognizes when a quick 80% solution will suffice".toList]
  unskilled_signs :=
    ["Approaches decisions haphazardly or delays decision making".toList,
     "Makes decisions based on incomplete data or inaccurate assumptions".toList,
     "Ignores different points of view".toList,
     "Makes decisions that impact short-term results at the expense of longer-term goals".toList]

def drivesResultsEntry : CompetencyEntry where
  description := "Consistently achieving results, even under tough circumstances.".toList
  questions :=
    ["Describe a time you championed a cause that others had abandoned.".toList,
     "Tell me about a time you got results that far exceeded your own expectations.".toList,
     "Tell me about a time you got results even though some major factor changed, such as a budget cut.".toList,
     "Describe a time when you drove yourself harder than you were driving others.".toList,
     "Talk about a time you were assigned to a fix-it or turnaround project.".toList]
  skilled_signs :=
    ["Has a strong bottom-line orientation".toList,
     "Persists in accomplishing objectives despite obstacles and setbacks".toList,
     "Has a track record of exceeding goals successfully".toList,
     "Pushes self and helps others achieve results".toList]
  unskilled_signs :=
    ["Is reluctant to push for results".toList,
     "Does the least to get by".toList,
     "Is an inconsistent performer".toList,
     "Gives up easily".toList,
     "Often misses deadlines".toList]

def strategicMindsetEntry : CompetencyEntry where
  description := "Seeing ahead to future possibilities and translating them into breakthrough strategies.".toList
  questions :=
    ["Give me an example of working with a team and creating a new vision and strategy.".toList,
     "Give me an example of exploring various scenarios and possibilities when charting a course for the future.".toList,
     "Tell me about a time when your strategic vision or big-picture thinking was an asset.".toList,
     "Tell me about a time you were implementing a strategy and had to revise it mid-process due to changes in the environment.".toList,
     "Describe a time you had to develop a strategy that would create value for your organization or customers.".toList]
  skilled_signs :=
    ["Anticipates future trends and implications accurately".toList,
     "Readily poses future scenarios".toList,
     "Articulates credible pictures and visions of possibilities".toList,
     "Creates competitive and breakthrough strategies".toList]
  unskilled_signs :=
    ["Is more comfortable in the tactical here and now".toList,
     "Spends little time thinking about strategic issues".toList,
     "Contributes little to strategic discussions".toList,
     "Lacks the disciplined thought processes to develop a coherent view".toList]

/-- The Competency Catalog, `self.general_competencies`
(`load_general_competencies` of unified_star_coach.py), as an association
list keyed by competency name. -/
def general_competencies : List (Str × CompetencyEntry) :=
  [("Action Oriented".toList, actionOrientedEntry),
   ("Being Resilient".toList, beingResilientEntry),
   ("Collaborates".toList, collaboratesEntry),
   ("Communicates Effectively".toList, communicatesEffectivelyEntry),
   ("Customer Focus".toList, customerFocusEntry),
   ("Decision Quality".toList, decisionQualityEntry),
   ("Drives Results".toList, drivesResultsEntry),
   ("Strategic Mindset".toList, strategicMindsetEntry)]

/-- `situation_length = len(story['situation'].split())`. -/
def situation_length (story : Story) : Nat := wordCount story.situation

/-- `task_length = len(story['task'].split())` (computed in `provide_feedback`). -/
def task_length (story : Story) : Nat := wordCount story.task

/-- `action_length = len(story['action'].split())`. -/
def action_length (story : Story) : Nat := wordCount story.action

/-- `result_length = len(story['result'].split())`. -/
def result_length (story : Story) : Nat := wordCount story.result

/-- `has_quantifiable_results = any(char.isdigit() for char in story['result'])`. -/
def has_quantifiable_results (story : Story) : Bool :=
  story.result.any Char.isDigit

/-- `personal_action = ('i ' in story['action'].lower() or 'my ' in
story['action'].lower() or 'me ' in story['action'].lower())`. -/
def personal_action (story : Story) : Bool :=
  hasSubstr "i ".toList (pyLower story.action) ||
  hasSubstr "my ".toList (pyLower story.action) ||
  hasSubstr "me ".toList (pyLower story.action)

/-- One sign matches when any whitespace-split word of the lower-cased sign
occurs as a substring of the lower-cased action or lower-cased result
(`any(word in story['action'].lower() or word in story['result'].lower() for
word in sign.lower().split())`); the two lowered texts are passed in. -/
def signMatches (lowAct lowRes : Str) (sign : Str) : Bool :=
  (pySplit (pyLower sign)).any fun word =>
    hasSubstr word lowAct || hasSubstr word lowRes

/-- `sum(1 for sign in signs if ...)`: the number of matching signs. -/
def alignment (lowAct lowRes : Str) (signs : List Str) : Nat :=
  signs.countP (signMatches lowAct lowRes)

/-- `skilled_alignment` of `score_story`. -/
def skilled_alignment (entry : CompetencyEntry) (story : Story) : Nat :=
  alignment (pyLower story.action) (pyLower story.result) entry.skilled_signs

/-- `unskilled_alignment` of `score_story`. -/
def unskilled_alignment (entry : CompetencyEntry) (story : Story) : Nat :=
  alignment (pyLower story.action) (pyLower story.result) entry.unskilled_signs

/-- The if/elif classification chain of `score_story` (default "Skilled"). -/
def determine_score (situation_length action_length result_length : Nat)
    (has_quantifiable_results personal_action : Bool)
    (skilled_alignment unskilled_alignment : Nat) : Label :=
  if situation_length < 20 ∨ action_length < 30 ∨ result_length < 20 then .Unskilled
  else if personal_action = false then .Unskilled
  else if has_quantifiable_results = false then .Skilled
  else if 200 < action_length ∧ result_length < 50 then .Overused
  else if 2 < skilled_alignment ∧ has_quantifiable_results = true ∧
      personal_action = true ∧ 50 < action_length then .Talented
  else if 2 < unskilled_alignment then .Unskilled
  else .Skilled

/-- Suggestion emitted when `situation_length < 20`. -/
def sugSituation : Str :=
  "- Add more context to your situation to set the stage more effectively.".toList

/-- Suggestion emitted when `task_length < 20`. -/
def sugTask : Str :=
  "- Clarify your specific responsibility or challenge in more detail.".toList

/-- Suggestion emitted when `not personal_action`. -/
def sugVoice : Str :=
  "- Focus more on YOUR actions by using 'I' statements rather than 'we' or passive voice.".toList

/-- Suggestion emitted when `action_length < 50`. -/
def sugAction : Str :=
  "- Provide more specific details about the steps you took and your decision-making process.".toList

/-- Suggestion emitted when `result_length < 20`. -/
def sugResult : Str :=
  "- Expand on the outcomes and impact of your actions.".toList

/-- Suggestion emitted when `not has_quantifiable_results`. -/
def sugQuant : Str :=
  "- Include specific numbers or metrics to quantify your results (%, $, time saved, etc.).".toList

/-- Suggestion emitted when `action_length > 200 and result_length < 50`. -/
def sugBalance : Str :=
  "- Balance your story by focusing more on results and less on listing every action step.".toList

/-- Header line of the closing remark for an Unskilled or Overused label. -/
def headIncorporate : Str :=
  "Consider incorporating these elements that demonstrate skill in this competency:".toList

/-- Header line of the closing remark for a Talented or Skilled label. -/
def headStrengthen : Str :=
  "To further strengthen your story for this competency, consider:".toList

/-- The fixed per-competency closing tips printed in the else branch of the
competency-specific feedback (the if/elif chain on the competency name at the
end of `provide_feedback`); competencies outside the chain get no tips. -/
def closing_tips (competency : Str) : List Str :=
  if competency = "Action Oriented".toList then
    ["- Emphasizing how quickly you took initiative without excessive planning".toList,
     "- Highlighting your eagerness to tackle challenges head-on".toList]
  else if competency = "Being Resilient".toList then
    ["- Focusing more on how you maintained composure under pressure".toList,
     "- Emphasizing what you learned from overcoming adversity".toList]
  else if competency = "Collaborates".toList then
    ["- Detailing how you balanced your interests with those of others".toList,
     "- Explaining how you recognized others' contributions".toList]
  else if competency = "Communicates Effectively".toList then
    ["- Highlighting how you adapted your communication style to different audiences".toList,
     "- Showing how you ensured your message was clearly understood".toList]
  else if competency = "Customer Focus".toList then
    ["- Emphasizing how you gained insight into customer needs".toList,
     "- Detailing how you built a strong customer relationship".toList]
  else if competency = "Decision Quality".toList then
    ["- Highlighting the factors you considered in your decision-making process".toList,
     "- Showing how you made decisions with incomplete information".toList]
  else if competency = "Drives Results".toList then
    ["- Emphasizing your persistence despite obstacles".toList,
     "- Highlighting how you exceeded expectations or goals".toList]
  else if competency = "Strategic Mindset".toList then
    ["- Emphasizing how you anticipated future trends or implications".toList,
     "- Showing how your approach aligned with broader objectives".toList]
  else []

/-- The ordered list of suggestion lines printed by `provide_feedback`: the
seven independently triggered suggestions, then the competency-specific
closing remark (colour markup, the per-label opening blurb and the two fixed
section headers around the list are presentation and omitted). -/
def provide_feedback (entry : CompetencyEntry) (story : Story) (score : Label) : List Str :=
  (if situation_length story < 20 then [sugSituation] else []) ++
  (if task_length story < 20 then [sugTask] else []) ++
  (if personal_action story = false then [sugVoice] else []) ++
  (if action_length story < 50 then [sugAction] else []) ++
  (if result_length story < 20 then [sugResult] else []) ++
  (if has_quantifiable_results story = false then [sugQuant] else []) ++
  (if 200 < action_length story ∧ result_length story < 50 then [sugBalance] else []) ++
  (if score = .Unskilled ∨ score = .Overused then
    headIncorporate :: (entry.skilled_signs.take 2).map (fun sign => "- ".toList ++ sign)
  else
    headStrengthen :: closing_tips story.competency)

/-- Outcome of a `score_story` call: the incomplete-story early return, the
`KeyError` of an unknown competency, or success with the (label, description,
feedback) triple. -/
inductive ScoreResult where
  | IncompleteStoryError : ScoreResult
  | UnknownCompetencyError : ScoreResult
  | ok : Label → Str → List Str → ScoreResult
deriving DecidableEq

/-- `score_story` of unified_star_coach.py as a state-passing function: the
story after the call, paired with the outcome.  The completeness check is the
source's `not all([story.get('situation'), story.get('task'),
story.get('action'), story.get('result'), story.get('competency')])`; the
catalog lookup raises before the single mutation `story['score'] = score`. -/
def score_story (story : Story) : Story × ScoreResult :=
  if story.situation = [] ∨ story.task = [] ∨ story.action = [] ∨
      story.result = [] ∨ story.competency = [] then
    (story, .IncompleteStoryError)
  else
    match general_competencies.lookup story.competency with
    | none => (story, .UnknownCompetencyError)
    | some entry =>
      let score := determine_score (situation_length story) (action_length story)
        (result_length story) (has_quantifiable_results story) (personal_action story)
        (skilled_alignment entry story) (unskilled_alignment entry story)
      ({ story with score := some (labelStr score) },
        .ok score (score_description score) (provide_feedback entry story score))

/-- The label a call returns, when it returns one. -/
def scoreLabel (story : Story) : Option Label :=
  match (score_story story).2 with
  | .ok l _ _ => some l
  | _ => none

/-- The score description a call returns, when it returns one. -/
def scoreDescription (story : Story) : Option Str :=
  match (score_story story).2 with
  | .ok _ d _ => some d
  | _ => none

/-! ### Basic lemmas about the string primitives -/

theorem leadsList_iff (n h : Str) : leadsList n h = true ↔ n <+: h := by
  induction n generalizing h with
  | nil => simp [leadsList]
  | cons a as ih =>
    cases h with
    | nil => simp [leadsList]
    | cons b bs =>
      simp [leadsList, List.cons_prefix_cons, ih, Bool.and_eq_true, beq_iff_eq]

theorem hasSubstr_iff (n h : Str) : hasSubstr n h = true ↔ n <:+: h := by
  induction h with
  | nil => simp [hasSubstr, List.isEmpty_iff]
  | cons c cs ih =>
    simp [hasSubstr, leadsList_iff, ih, List.infix_cons_iff]

theorem wordCount_nil : wordCount ([] : Str) = 0 := rfl

theorem ne_nil_of_wordCount_pos {s : Str} (h : 0 < wordCount s) : s ≠ [] := by
  intro he
  subst he
  simp [wordCount_nil] at h

/-! ### The three paths of `score_story` -/

/-- The label the success path computes. -/
def story_label (entry : CompetencyEntry) (story : Story) : Label :=
  determine_score (situation_length story) (action_length story) (result_length story)
    (has_quantifiable_results story) (personal_action story)
    (skilled_alignment entry story) (unskilled_alignment entry story)

theorem score_story_incomplete {story : Story}
    (h : story.situation = [] ∨ story.task = [] ∨ story.action = [] ∨
      story.result = [] ∨ story.competency = []) :
    score_story story = (story, .IncompleteStoryError) := by
  unfold score_story
  rw [if_pos h]

theorem score_story_unknown {story : Story}
    (hc : ¬ (story.situation = [] ∨ story.task = [] ∨ story.action = [] ∨
      story.result = [] ∨ story.competency = []))
    (hl : general_competencies.lookup story.competency = none) :
    score_story story = (story, .UnknownCompetencyError) := by
  unfold score_story
  rw [if_neg hc, hl]

theorem score_story_of_lookup (story : Story) (entry : CompetencyEntry)
    (h1 : story.situation ≠ []) (h2 : story.task ≠ []) (h3 : story.action ≠ [])
    (h4 : story.result ≠ []) (h5 : story.competency ≠ [])
    (hl : general_competencies.lookup story.competency = some entry) :
    score_story story =
      ({ story with score := some (labelStr (story_label entry story)) },
        .ok (story_label entry story) (score_description (story_label entry story))
          (provide_feedback entry story (story_label entry story))) := by
  have hc : ¬ (story.situation = [] ∨ story.task = [] ∨ story.action = [] ∨
      story.result = [] ∨ story.competency = []) := by
    simp [h1, h2, h3, h4, h5]
  unfold score_story
  rw [if_neg hc, hl]
  rfl

/-! ### The ordered decision list of §4.2 -/

/-- Rule `k`'s condition in the spec's ordered decision list, stated on the
derived measurements; indices 0..6 stand for rules 1..7, and every index from
6 on is the always-true default of rule 7. -/
def ruleCond (sl al rl : Nat) (hqr pa : Bool) (sa ua : Nat) : Nat → Prop
  | 0 => sl < 20 ∨ al < 30 ∨ rl < 20
  | 1 => pa = false
  | 2 => hqr = false
  | 3 => 200 < al ∧ rl < 50
  | 4 => 2 < sa ∧ hqr = true ∧ pa = true ∧ 50 < al
  | 5 => 2 < ua
  | _ => True

/-- Rule `k`'s label in the spec's ordered decision list. -/
def ruleLabel : Nat → Label
  | 0 => .Unskilled
  | 1 => .Unskilled
  | 2 => .Skilled
  | 3 => .Overused
  | 4 => .Talented
  | 5 => .Unskilled
  | _ => .Skilled

/-- The if/elif chain returns the label of the first matching rule. -/
theorem determine_score_first_match (sl al rl : Nat) (hqr pa : Bool) (sa ua : Nat)
    (k : Nat) (hk : ruleCond sl al rl hqr pa sa ua k)
    (hmin : ∀ j, j < k → ¬ ruleCond sl al rl hqr pa sa ua j) :
    determine_score sl al rl hqr pa sa ua = ruleLabel k := by
  obtain _|_|_|_|_|_|_|n := k
  · have hk' : sl < 20 ∨ al < 30 ∨ rl < 20 := hk
    unfold determine_score
    rw [if_pos hk']
    rfl
  · have h0 : ¬ (sl < 20 ∨ al < 30 ∨ rl < 20) := hmin 0 (by omega)
    have hk' : pa = false := hk
    unfold determine_score
    rw [if_neg h0, if_pos hk']
    rfl
  · have h0 : ¬ (sl < 20 ∨ al < 30 ∨ rl < 20) := hmin 0 (by omega)
    have h1 : ¬ pa = false := hmin 1 (by omega)
    have hk' : hqr = false := hk
    unfold determine_score
    rw [if_neg h0, if_neg h1, if_pos hk']
    rfl
  · have h0 : ¬ (sl < 20 ∨ al < 30 ∨ rl < 20) := hmin 0 (by omega)
    have h1 : ¬ pa = false := hmin 1 (by omega)
    have h2 : ¬ hqr = false := hmin 2 (by omega)
    have hk' : 200 < al ∧ rl < 50 := hk
    unfold determine_score
    rw [if_neg h0, if_neg h1, if_neg h2, if_pos hk']
    rfl
  · have h0 : ¬ (sl < 20 ∨ al < 30 ∨ rl < 20) := hmin 0 (by omega)
    have h1 : ¬ pa = false := hmin 1 (by omega)
    have h2 : ¬ hqr = false := hmin 2 (by omega)
    have h3 : ¬ (200 < al ∧ rl < 50) := hmin 3 (by omega)
    have hk' : 2 < sa ∧ hqr = true ∧ pa = true ∧ 50 < al := hk
    unfold determine_score
    rw [if_neg h0, if_neg h1, if_neg h2, if_neg h3, if_pos hk']
    rfl
  · have h0 : ¬ (sl < 20 ∨ al < 30 ∨ rl < 20) := hmin 0 (by omega)
    have h1 : ¬ pa = false := hmin 1 (by omega)
    have h2 : ¬ hqr = false := hmin 2 (by omega)
    have h3 : ¬ (200 < al ∧ rl < 50) := hmin 3 (by omega)
    have h4 : ¬ (2 < sa ∧ hqr = true ∧ pa = true ∧ 50 < al) := hmin 4 (by omega)
    have hk' : 2 < ua := hk
    unfold determine_score
    rw [if_neg h0, if_neg h1, if_neg h2, if_neg h3, if_neg h4, if_pos hk']
    rfl
  · have h0 : ¬ (sl < 20 ∨ al < 30 ∨ rl < 20) := hmin 0 (by omega)
    have h1 : ¬ pa = false := hmin 1 (by omega)
    have h2 : ¬ hqr = false := hmin 2 (by omega)
    have h3 : ¬ (200 < al ∧ rl < 50) := hmin 3 (by omega)
    have h4 : ¬ (2 < sa ∧ hqr = true ∧ pa = true ∧ 50 < al) := hmin 4 (by omega)
    have h5 : ¬ 2 < ua := hmin 5 (by omega)
    unfold determine_score
    rw [if_neg h0, if_neg h1, if_neg h2, if_neg h3, if_neg h4, if_neg h5]
    rfl
  · exact absurd trivial (hmin 6 (by omega))

/-- C1: for every Story whose situation, task, action, result and competency
fields are all non-empty and whose competency is an entry of the Competency
Catalog, `score_story` returns the label of the first matching rule of the
spec's ordered decision list (rules indexed 0..6): whenever rule `k` matches
and no earlier rule does, the returned label is rule `k`'s label — in
particular never a later rule's label. -/
theorem claim1_first_matching_rule_wins (story : Story) (entry : CompetencyEntry)
    (h1 : story.situation ≠ []) (h2 : story.task ≠ []) (h3 : story.action ≠ [])
    (h4 : story.result ≠ []) (h5 : story.competency ≠ [])
    (hl : general_competencies.lookup story.competency = some entry)
    (k : Nat)
    (hk : ruleCond (situation_length story) (action_length story) (result_length story)
      (has_quantifiable_results story) (personal_action story)
      (skilled_alignment entry story) (unskilled_alignment entry story) k)
    (hmin : ∀ j, j < k → ¬ ruleCond (situation_length story) (action_length story)
      (result_length story) (has_quantifiable_results story) (personal_action story)
      (skilled_alignment entry story) (unskilled_alignment entry story) j) :
    scoreLabel story = some (ruleLabel k) := by
  have he := score_story_of_lookup story entry h1 h2 h3 h4 h5 hl
  unfold scoreLabel
  rw [he]
  show some (story_label entry story) = some (ruleLabel k)
  exact congrArg some (determine_score_first_match _ _ _ _ _ _ _ k hk hmin)

/-! ### Concrete stories used as witnesses and counterexamples -/

/-- `n` copies of a word followed by a blank: a text of exactly `n` words. -/
def rep (n : Nat) (s : String) : Str := (List.replicate n s.toList).flatten

/-- Scenario B of the spec: a two-word situation, everything else well formed. -/
def storyB : Story where
  competency := "Action Oriented".toList
  question := "q".toList
  situation := "Too short.".toList
  task := "t".toList
  action := rep 40 "i "
  result := rep 25 "r "
  score := none
  timestamp := none

/-- Scenario D of the spec: a 250-word action, a 10-word result, personal
voice present, situation and task adequate. -/
def storyD : Story where
  competency := "Action Oriented".toList
  question := "q".toList
  situation := rep 20 "w "
  task := "t".toList
  action := rep 250 "i "
  result := rep 10 "r "
  score := none
  timestamp := none

/-- A story whose four narrative fields are filled but whose competency
string is empty. -/
def storyE : Story where
  competency := []
  question := "q".toList
  situation := "s".toList
  task := "t".toList
  action := "a".toList
  result := "r".toList
  score := none
  timestamp := none

/-- A story whose five required fields are filled but whose competency names
no catalog entry. -/
def storyU : Story where
  competency := "Nonexistent Competency".toList
  question := "q".toList
  situation := "s".toList
  task := "t".toList
  action := "a".toList
  result := "r".toList
  score := none
  timestamp := none

theorem claim1_first_matching_rule_wins_witness :
    scoreLabel storyB = some (ruleLabel 0) :=
  claim1_first_matching_rule_wins storyB actionOrientedEntry
    (by decide) (by decide) (by decide) (by decide) (by decide) (by rfl) 0
    (by show situation_length storyB < 20 ∨ action_length storyB < 30 ∨
          result_length storyB < 20
        decide)
    (fun j hj => absurd hj (Nat.not_lt_zero j))

set_option maxRecDepth 40000 in
/-- C2 fails on the code: `storyD` satisfies every premise of the claim
(250-word action, 10-word result, personal voice, adequate situation and
task, catalog competency), yet `score_story` returns Unskilled, not
Overused: rule 1 fires on `result_length < 20` before rule 4 is reached. -/
theorem claim2_counterexample :
    action_length storyD = 250 ∧ result_length storyD = 10 ∧
    personal_action storyD = true ∧ 20 ≤ situation_length storyD ∧
    storyD.task ≠ [] ∧
    (general_competencies.lookup storyD.competency).isSome = true ∧
    scoreLabel storyD ≠ some Label.Overused := by
  refine ⟨by decide, by decide, by decide, by decide, by decide, by rfl, ?_⟩
  decide

/-- C2 as amended: with those premises the returned label is Unskilled
(rule 1 fires on the 10-word result before rule 4 is considered). -/
theorem claim2_amended (story : Story) (entry : CompetencyEntry)
    (hal : action_length story = 250) (hrl : result_length story = 10)
    (hpa : personal_action story = true) (hsl : 20 ≤ situation_length story)
    (h2 : story.task ≠ []) (h5 : story.competency ≠ [])
    (hl : general_competencies.lookup story.competency = some entry) :
    scoreLabel story = some Label.Unskilled := by
  have h1 : story.situation ≠ [] := by
    intro he
    rw [show situation_length story = 0 by rw [situation_length, he]; rfl] at hsl
    omega
  have h3 : story.action ≠ [] := by
    intro he
    rw [show action_length story = 0 by rw [action_length, he]; rfl] at hal
    omega
  have h4 : story.result ≠ [] := by
    intro he
    rw [show result_length story = 0 by rw [result_length, he]; rfl] at hrl
    omega
  have he := score_story_of_lookup story entry h1 h2 h3 h4 h5 hl
  unfold scoreLabel
  rw [he]
  show some (story_label entry story) = some Label.Unskilled
  unfold story_label determine_score
  rw [if_pos (Or.inr (Or.inr (by omega)))]

set_option maxRecDepth 40000 in
theorem claim2_amended_witness : scoreLabel storyD = some Label.Unskilled :=
  claim2_amended storyD actionOrientedEntry (by decide) (by decide) (by decide)
    (by decide) (by decide) (by decide) (by rfl)

/-- C3 fails on the code as an "if and only if": `storyE` has all four
narrative fields non-empty, yet `score_story` still fails with the
incomplete-story outcome, because the source's completeness check also
covers the competency field. -/
theorem claim3_counterexample :
    storyE.situation ≠ [] ∧ storyE.task ≠ [] ∧ storyE.action ≠ [] ∧
    storyE.result ≠ [] ∧ (score_story storyE).2 = ScoreResult.IncompleteStoryError :=
  ⟨by decide, by decide, by decide, by decide, rfl⟩

/-- C3 as amended: `score_story` fails with the incomplete-story outcome iff
at least one of the five required fields — the four narrative fields or the
competency — is empty. -/
theorem claim3_amended (story : Story) :
    (score_story story).2 = ScoreResult.IncompleteStoryError ↔
      (story.situation = [] ∨ story.task = [] ∨ story.action = [] ∨
        story.result = [] ∨ story.competency = []) := by
  constructor
  · intro h
    by_cases hc : story.situation = [] ∨ story.task = [] ∨ story.action = [] ∨
      story.result = [] ∨ story.competency = []
    · exact hc
    · exfalso
      cases hl : general_competencies.lookup story.competency with
      | none => rw [score_story_unknown hc hl] at h; exact ScoreResult.noConfusion h
      | some entry =>
        push_neg at hc
        obtain ⟨n1, n2, n3, n4, n5⟩ := hc
        rw [score_story_of_lookup story entry n1 n2 n3 n4 n5 hl] at h
        exact ScoreResult.noConfusion h
  · intro h
    rw [score_story_incomplete h]

/-- C4: a non-empty competency that names no catalog entry makes
`score_story` fail with the unknown-competency outcome, whatever the lengths
of the narrative fields. -/
theorem claim4_unknown_competency (story : Story)
    (h1 : story.situation ≠ []) (h2 : story.task ≠ []) (h3 : story.action ≠ [])
    (h4 : story.result ≠ []) (h5 : story.competency ≠ [])
    (hl : general_competencies.lookup story.competency = none) :
    (score_story story).2 = ScoreResult.UnknownCompetencyError := by
  have hc : ¬ (story.situation = [] ∨ story.task = [] ∨ story.action = [] ∨
      story.result = [] ∨ story.competency = []) := by
    simp [h1, h2, h3, h4, h5]
  rw [score_story_unknown hc hl]

theorem claim4_unknown_competency_witness :
    (score_story storyU).2 = ScoreResult.UnknownCompetencyError :=
  claim4_unknown_competency storyU (by decide) (by decide) (by decide)
    (by decide) (by decide) (by rfl)

/-- C5: on failure `score_story` leaves the Story unchanged — the only
mutation of the method, `story['score'] = score`, happens exactly when the
call fully succeeds, and then it sets the score field to the returned label
and touches nothing else. -/
theorem claim5_no_partial_mutation (story : Story) :
    (((score_story story).2 = ScoreResult.IncompleteStoryError ∨
      (score_story story).2 = ScoreResult.UnknownCompetencyError) →
      (score_story story).1 = story) ∧
    (∀ l d fb, (score_story story).2 = ScoreResult.ok l d fb →
      (score_story story).1 = { story with score := some (labelStr l) }) := by
  by_cases hc : story.situation = [] ∨ story.task = [] ∨ story.action = [] ∨
    story.result = [] ∨ story.competency = []
  · rw [score_story_incomplete hc]
    refine ⟨fun _ => rfl, fun l d fb h => ?_⟩
    exact ScoreResult.noConfusion h
  · push_neg at hc
    obtain ⟨n1, n2, n3, n4, n5⟩ := hc
    cases hl : general_competencies.lookup story.competency with
    | none =>
      rw [score_story_unknown (by simp [n1, n2, n3, n4, n5]) hl]
      refine ⟨fun _ => rfl, fun l d fb h => ?_⟩
      exact ScoreResult.noConfusion h
    | some entry =>
      rw [score_story_of_lookup story entry n1 n2 n3 n4 n5 hl]
      constructor
      · rintro (h | h) <;> exact ScoreResult.noConfusion h
      · intro l d fb h
        have h' : ScoreResult.ok (story_label entry story)
            (score_description (story_label entry story))
            (provide_feedback entry story (story_label entry story)) =
            ScoreResult.ok l d fb := h
        injection h' with hlab _ _
        show { story with score := some (labelStr (story_label entry story)) } =
          { story with score := some (labelStr l) }
        rw [hlab]

/-- The outcome of `score_story` never depends on the optional score field:
the method reads only the five required fields. -/
theorem score_story_snd_score_irrelevant (story : Story) (x : Option Str) :
    (score_story { story with score := x }).2 = (score_story story).2 := by
  obtain ⟨c, q, s, t, a, r, sc, ts⟩ := story
  show (score_story ⟨c, q, s, t, a, r, x, ts⟩).2 = (score_story ⟨c, q, s, t, a, r, sc, ts⟩).2
  by_cases hc : s = [] ∨ t = [] ∨ a = [] ∨ r = [] ∨ c = []
  · rw [@score_story_incomplete ⟨c, q, s, t, a, r, x, ts⟩ hc,
      @score_story_incomplete ⟨c, q, s, t, a, r, sc, ts⟩ hc]
  · push_neg at hc
    obtain ⟨n1, n2, n3, n4, n5⟩ := hc
    cases hl : List.lookup c general_competencies with
    | none =>
      rw [@score_story_unknown ⟨c, q, s, t, a, r, x, ts⟩ (by simp [n1, n2, n3, n4, n5]) hl,
        @score_story_unknown ⟨c, q, s, t, a, r, sc, ts⟩ (by simp [n1, n2, n3, n4, n5]) hl]
    | some entry =>
      rw [score_story_of_lookup ⟨c, q, s, t, a, r, x, ts⟩ entry n1 n2 n3 n4 n5 hl,
        score_story_of_lookup ⟨c, q, s, t, a, r, sc, ts⟩ entry n1 n2 n3 n4 n5 hl]
      rfl

/-- C8: scoring the story a second time, after the first call has set the
score field, returns the identical outcome — in particular the identical
(label, description, feedback) triple — because the method never reads the
score field. -/
theorem claim8_idempotent (story : Story) :
    (score_story (score_story story).1).2 = (score_story story).2 := by
  by_cases hc : story.situation = [] ∨ story.task = [] ∨ story.action = [] ∨
    story.result = [] ∨ story.competency = []
  · rw [score_story_incomplete hc]
    show (score_story story).2 = ScoreResult.IncompleteStoryError
    rw [score_story_incomplete hc]
  · push_neg at hc
    obtain ⟨n1, n2, n3, n4, n5⟩ := hc
    cases hl : general_competencies.lookup story.competency with
    | none =>
      have hc' : ¬ (story.situation = [] ∨ story.task = [] ∨ story.action = [] ∨
        story.result = [] ∨ story.competency = []) := by simp [n1, n2, n3, n4, n5]
      rw [score_story_unknown hc' hl]
      show (score_story story).2 = ScoreResult.UnknownCompetencyError
      rw [score_story_unknown hc' hl]
    | some entry =>
      rw [score_story_of_lookup story entry n1 n2 n3 n4 n5 hl]
      show (score_story { story with score := some (labelStr (story_label entry story)) }).2 =
        ScoreResult.ok (story_label entry story) (score_description (story_label entry story))
          (provide_feedback entry story (story_label entry story))
      rw [score_story_snd_score_irrelevant story (some (labelStr (story_label entry story))),
        score_story_of_lookup story entry n1 n2 n3 n4 n5 hl]

/-- C6: the derived measurements are exactly as the spec describes them:
the digit check is existence of a decimal digit in the result; the voice
check is plain substring containment of "i ", "my " or "me " in the
lower-cased action (so an action whose lower-casing contains "time " counts
as personal voice); each alignment count is the number of signs with at
least one whitespace-split lower-cased word occurring as a substring of the
lower-cased action or the lower-cased result. -/
theorem claim6_derived_measurements (story : Story) (entry : CompetencyEntry) :
    (has_quantifiable_results story = true ↔ ∃ c ∈ story.result, c.isDigit = true) ∧
    (personal_action story = true ↔
      ("i ".toList <:+: pyLower story.action ∨ "my ".toList <:+: pyLower story.action ∨
        "me ".toList <:+: pyLower story.action)) ∧
    ("time ".toList <:+: pyLower story.action → personal_action story = true) ∧
    (skilled_alignment entry story = entry.skilled_signs.countP (fun sign =>
      decide (∃ w ∈ pySplit (pyLower sign),
        w <:+: pyLower story.action ∨ w <:+: pyLower story.result))) ∧
    (unskilled_alignment entry story = entry.unskilled_signs.countP (fun sign =>
      decide (∃ w ∈ pySplit (pyLower sign),
        w <:+: pyLower story.action ∨ w <:+: pyLower story.result))) := by
  have hsign : ∀ signs : List Str,
      alignment (pyLower story.action) (pyLower story.result) signs =
      signs.countP (fun sign => decide (∃ w ∈ pySplit (pyLower sign),
        w <:+: pyLower story.action ∨ w <:+: pyLower story.result)) := by
    intro signs
    unfold alignment
    refine List.countP_congr fun sign _ => ?_
    simp [signMatches, List.any_eq_true, hasSubstr_iff]
  refine ⟨?_, ?_, ?_, hsign entry.skilled_signs, hsign entry.unskilled_signs⟩
  · simp [has_quantifiable_results, List.any_eq_true]
  · simp [personal_action, Bool.or_eq_true, hasSubstr_iff]
    tauto
  · intro h
    have hme : "me ".toList <:+: "time ".toList := by decide
    have : "me ".toList <:+: pyLower story.action := hme.trans h
    simp [personal_action, Bool.or_eq_true, hasSubstr_iff]
    tauto

/-! ### Spec-side formulation of the feedback generation (claim C7) -/

/-- Spec-side (written from the spec's wording): the seven independently
triggered suggestion rules, in the spec's fixed order, each as a
(condition, suggestion) pair. -/
def suggestion_rules (story : Story) : List (Bool × Str) :=
  [(decide (situation_length story < 20), sugSituation),
   (decide (task_length story < 20), sugTask),
   (!personal_action story, sugVoice),
   (decide (action_length story < 50), sugAction),
   (decide (result_length story < 20), sugResult),
   (!has_quantifiable_results story, sugQuant),
   (decide (200 < action_length story ∧ result_length story < 50), sugBalance)]

/-- Spec-side: exactly the suggestions whose conditions hold, emitted in the
fixed order of the rule list. -/
def spec_suggestions (story : Story) : List Str :=
  ((suggestion_rules story).filter (fun r => r.1)).map (fun r => r.2)

/-- Spec-side: the fixed per-competency closing-tip table. -/
def bespoke_closing : List (Str × List Str) :=
  [("Action Oriented".toList,
    ["- Emphasizing how quickly you took initiative without excessive planning".toList,
     "- Highlighting your eagerness to tackle challenges head-on".toList]),
   ("Being Resilient".toList,
    ["- Focusing more on how you maintained composure under pressure".toList,
     "- Emphasizing what you learned from overcoming adversity".toList]),
   ("Collaborates".toList,
    ["- Detailing how you balanced your interests with those of others".toList,
     "- Explaining how you recognized others' contributions".toList]),
   ("Communicates Effectively".toList,
    ["- Highlighting how you adapted your communication style to different audiences".toList,
     "- Showing how you ensured your message was clearly understood".toList]),
   ("Customer Focus".toList,
    ["- Emphasizing how you gained insight into customer needs".toList,
     "- Detailing how you built a strong customer relationship".toList]),
   ("Decision Quality".toList,
    ["- Highlighting the factors you considered in your decision-making process".toList,
     "- Showing how you made decisions with incomplete information".toList]),
   ("Drives Results".toList,
    ["- Emphasizing your persistence despite obstacles".toList,
     "- Highlighting how you exceeded expectations or goals".toList]),
   ("Strategic Mindset".toList,
    ["- Emphasizing how you anticipated future trends or implications".toList,
     "- Showing how your approach aligned with broader objectives".toList])]

/-- Modelled from the spec: the generic closing tip the spec's feedback
description falls back to when a competency has no bespoke table entry (the
unified source prints no tip in that case; for stories that pass the
catalog lookup the fallback is unreachable, as every catalog competency has
a bespoke entry). -/
def generic_closing_tip : List Str :=
  ["- Strengthening this story with further specific, measurable detail".toList]

/-- Spec-side: the competency-specific closing remark appended after the
conditional suggestions. -/
def spec_closing (entry : CompetencyEntry) (competency : Str) (label : Label) : List Str :=
  if label = Label.Unskilled ∨ label = Label.Overused then
    headIncorporate :: (entry.skilled_signs.take 2).map (fun sign => "- ".toList ++ sign)
  else
    headStrengthen :: (bespoke_closing.lookup competency).getD generic_closing_tip

theorem spec_suggestions_eq (story : Story) :
    spec_suggestions story =
      (if situation_length story < 20 then [sugSituation] else []) ++
      (if task_length story < 20 then [sugTask] else []) ++
      (if personal_action story = false then [sugVoice] else []) ++
      (if action_length story < 50 then [sugAction] else []) ++
      (if result_length story < 20 then [sugResult] else []) ++
      (if has_quantifiable_results story = false then [sugQuant] else []) ++
      (if 200 < action_length story ∧ result_length story < 50 then [sugBalance] else []) := by
  unfold spec_suggestions suggestion_rules
  cases h3 : personal_action story <;> cases h6 : has_quantifiable_results story <;>
    by_cases h1 : situation_length story < 20 <;>
    by_cases h2 : task_length story < 20 <;>
    by_cases h4 : action_length story < 50 <;>
    by_cases h5 : result_length story < 20 <;>
    by_cases h7 : 200 < action_length story ∧ result_length story < 50 <;>
    simp [h1, h2, h3, h4, h5, h6, h7]

/-- A key that looks up in the catalog is one of the eight catalog keys. -/
theorem lookup_mem {α β : Type} [BEq α] [LawfulBEq α] :
    ∀ (l : List (α × β)) (a : α) (b : β), List.lookup a l = some b → (a, b) ∈ l := by
  intro l a b
  induction l with
  | nil => intro h; exact Option.noConfusion h
  | cons p tl ih =>
    obtain ⟨k, v⟩ := p
    intro h
    rw [List.lookup] at h
    by_cases hk : a == k
    · rw [hk] at h
      injection h with hv
      rw [eq_of_beq hk, hv]
      exact List.mem_cons_self _ _
    · rw [Bool.not_eq_true] at hk
      rw [hk] at h
      exact List.mem_cons_of_mem _ (ih h)

/-- For every catalog competency the source's closing-tip if/elif chain
agrees with the spec-side table (the generic fallback is unreachable). -/
theorem closing_tips_eq_table (competency : Str) (entry : CompetencyEntry)
    (hl : general_competencies.lookup competency = some entry) :
    closing_tips competency = (bespoke_closing.lookup competency).getD generic_closing_tip := by
  have hmem := lookup_mem general_competencies competency entry hl
  simp only [general_competencies, List.mem_cons, List.not_mem_nil, or_false,
    Prod.mk.injEq] at hmem
  rcases hmem with ⟨hc, -⟩ | ⟨hc, -⟩ | ⟨hc, -⟩ | ⟨hc, -⟩ | ⟨hc, -⟩ | ⟨hc, -⟩ | ⟨hc, -⟩ | ⟨hc, -⟩ <;>
    subst hc <;> rfl

/-- C7: for every Story whose competency resolves in the catalog, the
feedback `provide_feedback` emits is exactly the suggestions whose
conditions hold, each independently triggered, in the spec's fixed order —
a filter of the ordered rule list, not an exclusive decision list — followed
by the closing remark: for an Unskilled or Overused label, the first two
skilled signs as "consider incorporating" suggestions, and otherwise the
competency-tailored tips of the fixed table (with a generic fallback for a
competency without a bespoke entry, which no catalog competency triggers). -/
theorem claim7_feedback_rules (story : Story) (entry : CompetencyEntry) (label : Label)
    (hl : general_competencies.lookup story.competency = some entry) :
    provide_feedback entry story label =
      spec_suggestions story ++ spec_closing entry story.competency label := by
  rw [spec_suggestions_eq]
  unfold provide_feedback spec_closing
  rw [closing_tips_eq_table story.competency entry hl]

theorem claim7_feedback_rules_witness :
    provide_feedback actionOrientedEntry storyB Label.Unskilled =
      spec_suggestions storyB ++ spec_closing actionOrientedEntry storyB.competency Label.Unskilled :=
  claim7_feedback_rules storyB actionOrientedEntry Label.Unskilled (by rfl)

/-- C9: for two Stories agreeing on situation, action, result and
competency, with non-empty (but otherwise arbitrary) task fields and
arbitrary question fields, `score_story` returns the same label and the
same description: task and question never influence the classification. -/
theorem claim9_task_question_noninterference (s1 s2 : Story)
    (hsit : s1.situation = s2.situation) (hact : s1.action = s2.action)
    (hres : s1.result = s2.result) (hcomp : s1.competency = s2.competency)
    (ht1 : s1.task ≠ []) (ht2 : s2.task ≠ []) :
    scoreLabel s1 = scoreLabel s2 ∧ scoreDescription s1 = scoreDescription s2 := by
  have hc : (s1.situation = [] ∨ s1.task = [] ∨ s1.action = [] ∨ s1.result = [] ∨
      s1.competency = []) ↔ (s2.situation = [] ∨ s2.task = [] ∨ s2.action = [] ∨
      s2.result = [] ∨ s2.competency = []) := by
    rw [hsit, hact, hres, hcomp]
    simp [ht1, ht2]
  by_cases h1 : s1.situation = [] ∨ s1.task = [] ∨ s1.action = [] ∨ s1.result = [] ∨
    s1.competency = []
  · unfold scoreLabel scoreDescription
    rw [score_story_incomplete h1, score_story_incomplete (hc.mp h1)]
    exact ⟨rfl, rfl⟩
  · have h2 : ¬ (s2.situation = [] ∨ s2.task = [] ∨ s2.action = [] ∨ s2.result = [] ∨
      s2.competency = []) := fun hh => h1 (hc.mpr hh)
    push_neg at h1 h2
    obtain ⟨n1, n2, n3, n4, n5⟩ := h1
    obtain ⟨m1, m2, m3, m4, m5⟩ := h2
    cases hl : general_competencies.lookup s1.competency with
    | none =>
      unfold scoreLabel scoreDescription
      rw [score_story_unknown (by simp [n1, n2, n3, n4, n5]) hl,
        score_story_unknown (by simp [m1, m2, m3, m4, m5]) (hcomp ▸ hl)]
      exact ⟨rfl, rfl⟩
    | some entry =>
      have hlab : story_label entry s1 = story_label entry s2 := by
        unfold story_label situation_length action_length result_length
          has_quantifiable_results personal_action skilled_alignment unskilled_alignment
        rw [hsit, hact, hres]
      unfold scoreLabel scoreDescription
      rw [score_story_of_lookup s1 entry n1 n2 n3 n4 n5 hl,
        score_story_of_lookup s2 entry m1 m2 m3 m4 m5 (hcomp ▸ hl)]
      exact ⟨congrArg some hlab, congrArg (fun l => some (score_description l)) hlab⟩

/-- First story of the C9 witness pair. -/
def story9a : Story where
  competency := "Action Oriented".toList
  question := "First question".toList
  situation := "s".toList
  task := "short".toList
  action := "a".toList
  result := "r".toList
  score := none
  timestamp := none

/-- Second story of the C9 witness pair: same narrative except the task and
the question. -/
def story9b : Story where
  competency := "Action Oriented".toList
  question := "A different question".toList
  situation := "s".toList
  task := rep 30 "word "
  action := "a".toList
  result := "r".toList
  score := none
  timestamp := none

theorem claim9_task_question_noninterference_witness :
    scoreLabel story9a = scoreLabel story9b ∧
    scoreDescription story9a = scoreDescription story9b :=
  claim9_task_question_noninterference story9a story9b rfl rfl rfl rfl
    (by decide) (by decide)

/-! ### Case invariance (claim C10) -/

theorem eq_nil_iff_of_map_eq {β : Type} {s t : Str} {f : Char → β}
    (h : s.map f = t.map f) : s = [] ↔ t = [] := by
  constructor <;> intro he <;> subst he
  · simpa using h.symm
  · simpa using h

theorem splitWsAux_length_eq {s t : Str} (h : s.map pyIsSpace = t.map pyIsSpace) :
    ∀ {a b : Str}, (a = [] ↔ b = []) →
      (splitWsAux s a).length = (splitWsAux t b).length := by
  induction s generalizing t with
  | nil =>
    have ht : t = [] := by simpa using h.symm
    subst ht
    intro a b hab
    by_cases ha : a = []
    · simp [splitWsAux, ha, hab.mp ha]
    · have hb : ¬ b = [] := fun hb => ha (hab.mpr hb)
      simp [splitWsAux, ha, hb]
  | cons c cs ih =>
    cases t with
    | nil => exact absurd h (by simp)
    | cons d ds =>
      simp only [List.map_cons, List.cons.injEq] at h
      obtain ⟨hcd, hrest⟩ := h
      intro a b hab
      simp only [splitWsAux]
      rw [hcd]
      by_cases hd : pyIsSpace d = true
      · rw [if_pos hd, if_pos hd]
        have hpre : (if a = [] then ([] : List Str) else [a.reverse]).length =
            (if b = [] then ([] : List Str) else [b.reverse]).length := by
          by_cases ha : a = []
          · simp [ha, hab.mp ha]
          · have hb : ¬ b = [] := fun hb => ha (hab.mpr hb)
            simp [ha, hb]
        simp only [List.length_append, hpre, ih hrest Iff.rfl]
      · rw [if_neg hd, if_neg hd]
        exact ih hrest (by simp)

/-- Word counts depend only on which positions are whitespace. -/
theorem wordCount_congr_space {s t : Str} (h : s.map pyIsSpace = t.map pyIsSpace) :
    wordCount s = wordCount t :=
  splitWsAux_length_eq h Iff.rfl

theorem any_congr_of_map_eq {s t : Str} {p : Char → Bool} (h : s.map p = t.map p) :
    s.any p = t.any p := by
  induction s generalizing t with
  | nil =>
    have ht : t = [] := by simpa using h.symm
    subst ht
    rfl
  | cons c cs ih =>
    cases t with
    | nil => exact absurd h (by simp)
    | cons d ds =>
      simp only [List.map_cons, List.cons.injEq] at h
      obtain ⟨h1, h2⟩ := h
      simp [List.any_cons, h1, ih h2]

/-- Two strings that differ only in the letter case of some characters:
position by position they lower-case to the same character, and — as the
claim requires — the whitespace and digit positions are unchanged. -/
def caseVariantOf (s t : Str) : Prop :=
  s.map pyLowerChar = t.map pyLowerChar ∧
  s.map pyIsSpace = t.map pyIsSpace ∧
  s.map Char.isDigit = t.map Char.isDigit

/-- C10: changing the letter case of characters of the four narrative fields
(without changing whitespace or digits) never changes the returned label:
the word counts and the digit check are case-independent, and the voice and
sign-alignment checks lower-case the text before matching. -/
theorem claim10_case_invariance (s1 s2 : Story)
    (hsit : caseVariantOf s1.situation s2.situation)
    (htask : caseVariantOf s1.task s2.task)
    (hact : caseVariantOf s1.action s2.action)
    (hres : caseVariantOf s1.result s2.result)
    (hcomp : s1.competency = s2.competency) :
    scoreLabel s1 = scoreLabel s2 := by
  obtain ⟨hsitL, hsitS, hsitD⟩ := hsit
  obtain ⟨htaskL, htaskS, htaskD⟩ := htask
  obtain ⟨hactL, hactS, hactD⟩ := hact
  obtain ⟨hresL, hresS, hresD⟩ := hres
  have hc : (s1.situation = [] ∨ s1.task = [] ∨ s1.action = [] ∨ s1.result = [] ∨
      s1.competency = []) ↔ (s2.situation = [] ∨ s2.task = [] ∨ s2.action = [] ∨
      s2.result = [] ∨ s2.competency = []) :=
    or_congr (eq_nil_iff_of_map_eq hsitL) (or_congr (eq_nil_iff_of_map_eq htaskL)
      (or_congr (eq_nil_iff_of_map_eq hactL) (or_congr (eq_nil_iff_of_map_eq hresL)
        (by rw [hcomp]))))
  by_cases h1 : s1.situation = [] ∨ s1.task = [] ∨ s1.action = [] ∨ s1.result = [] ∨
    s1.competency = []
  · unfold scoreLabel
    rw [score_story_incomplete h1, score_story_incomplete (hc.mp h1)]
  · have h2 : ¬ (s2.situation = [] ∨ s2.task = [] ∨ s2.action = [] ∨ s2.result = [] ∨
      s2.competency = []) := fun hh => h1 (hc.mpr hh)
    push_neg at h1 h2
    obtain ⟨n1, n2, n3, n4, n5⟩ := h1
    obtain ⟨m1, m2, m3, m4, m5⟩ := h2
    cases hl : general_competencies.lookup s1.competency with
    | none =>
      unfold scoreLabel
      rw [score_story_unknown (by simp [n1, n2, n3, n4, n5]) hl,
        score_story_unknown (by simp [m1, m2, m3, m4, m5]) (hcomp ▸ hl)]
    | some entry =>
      have hlab : story_label entry s1 = story_label entry s2 := by
        unfold story_label situation_length action_length result_length
          has_quantifiable_results personal_action skilled_alignment
          unskilled_alignment pyLower
        rw [wordCount_congr_space hsitS, wordCount_congr_space hactS,
          wordCount_congr_space hresS, any_congr_of_map_eq hresD, hactL, hresL]
      unfold scoreLabel
      rw [score_story_of_lookup s1 entry n1 n2 n3 n4 n5 hl,
        score_story_of_lookup s2 entry m1 m2 m3 m4 m5 (hcomp ▸ hl)]
      exact congrArg some hlab

/-- First story of the C10 witness pair, with mixed-case fields. -/
def story10a : Story where
  competency := "Action Oriented".toList
  question := "q".toList
  situation := "The Setting".toList
  task := "My Task".toList
  action := "I Stepped UP And Took Action".toList
  result := "Gained 7 New Opportunities".toList
  score := none
  timestamp := none

/-- Second story of the C10 witness pair: the same fields lower-cased. -/
def story10b : Story where
  competency := "Action Oriented".toList
  question := "q".toList
  situation := "the setting".toList
  task := "my task".toList
  action := "i stepped up and took action".toList
  result := "gained 7 new opportunities".toList
  score := none
  timestamp := none

theorem claim10_case_invariance_witness :
    scoreLabel story10a = scoreLabel story10b :=
  claim10_case_invariance story10a story10b
    (by unfold caseVariantOf; exact ⟨by decide, by decide, by decide⟩)
    (by unfold caseVariantOf; exact ⟨by decide, by decide, by decide⟩)
    (by unfold caseVariantOf; exact ⟨by decide, by decide, by decide⟩)
    (by unfold caseVariantOf; exact ⟨by decide, by decide, by decide⟩) rfl
